import Mathlib

/-!
Verification of the terminal session manager of dansun78/go-remote-term.

The Go sources are shallowly embedded: byte strings become `List Nat`
(byte values 0..255 as produced by Go string indexing), the package-level
sessions map becomes an association list, `time.Time`/`time.Duration`
become `Int` (nanosecond counts; only order and subtraction matter), and
external effects (PTY spawn, process signalling) become explicit
parameters or action lists.  Functions keep the names of the Go functions
they embed (pkg/terminal/utils.go, and the session files of the package:
types, sessions, websocket, auth).
-/

namespace RemoteTerm

/-- Byte strings are modelled as lists of byte values. -/
abbrev Bytes := List Nat

/-- Helper turning a list of ASCII characters into byte values. -/
def ascii (s : List Char) : Bytes := s.map Char.toNat

/- ----------------------------------------------------------------
   Output sanitizer: pkg/terminal/utils.go
   ---------------------------------------------------------------- -/

/-- Mirrors indexOf in pkg/terminal/utils.go: the index of the first
occurrence of substr in s, none when there is no occurrence (the Go
function returns -1 then). -/
def indexOf (s substr : Bytes) : Option Nat :=
  match s with
  | [] => if substr = [] then some 0 else none
  | _ :: t =>
    if substr.isPrefixOf s then some 0
    else (indexOf t substr).map (fun j => j + 1)

/-- Loop body of replaceAllStringLiteral in pkg/terminal/utils.go: result
accumulates the processed part, s is the rest still to scan.  The fuel
argument only forces termination; every iteration with a nonempty old
drops at least one byte of s, so the caller passes s.length + 1 and the
zero-fuel branch is never reached on those calls. -/
def replaceLoop (fuel : Nat) (result s old repl : Bytes) : Bytes :=
  match fuel with
  | 0 => result ++ s
  | fuel + 1 =>
    match indexOf s old with
    | none => result ++ s
    | some i => replaceLoop fuel (result ++ s.take i ++ repl) (s.drop (i + old.length)) old repl

/-- Mirrors replaceAllStringLiteral in pkg/terminal/utils.go (the third
parameter is called new in Go). -/
def replaceAllStringLiteral (s old repl : Bytes) : Bytes :=
  if old = [] then s
  else replaceLoop (s.length + 1) [] s old repl

/-- The eight denylist literals of processTerminalOutput, in source
order; 27 is ESC. -/
def replacePatterns : List Bytes :=
  [ [27, 91, 63, 50, 48, 48, 52, 104],  -- ESC [ ? 2 0 0 4 h : bracketed paste on
    [27, 91, 63, 50, 48, 48, 52, 108],  -- ESC [ ? 2 0 0 4 l : bracketed paste off
    [27, 91, 63, 49, 48, 52, 57, 104],  -- ESC [ ? 1 0 4 9 h : alternate screen on
    [27, 91, 63, 49, 48, 52, 57, 108],  -- ESC [ ? 1 0 4 9 l : alternate screen off
    [27, 91, 63, 49, 104],              -- ESC [ ? 1 h       : application cursor keys
    [27, 61],                           -- ESC =             : application keypad
    [27, 91, 63, 49, 50, 104],          -- ESC [ ? 1 2 h     : cursor blink on
    [27, 91, 63, 49, 50, 108] ]         -- ESC [ ? 1 2 l     : cursor blink off

/-- Mirrors processTerminalOutput in pkg/terminal/utils.go: removes each
denylist literal in turn by exact literal substring replacement with the
empty string. -/
def processTerminalOutput (data : Bytes) : Bytes :=
  replacePatterns.foldl (fun str pat => replaceAllStringLiteral str pat []) data

/-- When the literal does not occur, replaceAllStringLiteral returns its
input unchanged. -/
theorem replaceAllStringLiteral_of_indexOf_none (s old repl : Bytes)
    (h : indexOf s old = none) : replaceAllStringLiteral s old repl = s := by
  unfold replaceAllStringLiteral
  split
  · rfl
  · unfold replaceLoop
    simp [h]

/-- When no denylist literal occurs in the input, the sanitizer returns
it unchanged (helper, generalized over the pattern list). -/
theorem foldl_replace_of_no_occurrence (x : Bytes) (ps : List Bytes)
    (h : ∀ p ∈ ps, indexOf x p = none) :
    ps.foldl (fun str pat => replaceAllStringLiteral str pat []) x = x := by
  induction ps with
  | nil => rfl
  | cons p ps ih =>
    have hx : replaceAllStringLiteral x p [] = x :=
      replaceAllStringLiteral_of_indexOf_none x p [] (h p (List.mem_cons_self p ps))
    simp only [List.foldl_cons, hx]
    exact ih (fun q hq => h q (List.mem_cons_of_mem p hq))

/-- Input on which one sanitizer pass splices a new denylist occurrence:
removing ESC [ ? 1 0 4 9 h out of the middle glues the surrounding bytes
into ESC [ ? 2 0 0 4 h, which that pass has already finished handling. -/
def sanitizeCexInput : Bytes :=
  [27, 91, 63, 50, 48, 27, 91, 63, 49, 48, 52, 57, 104, 48, 52, 104]

/-- Input whose leading byte is removed by a single sanitizer pass even
though no denylist literal occurs at position 0: the bracketed-paste-on
literal sits in the middle, and its removal glues the flanks into the
alternate-screen-on literal, which a later pattern pass then removes. -/
def sanitizeCexInput2 : Bytes :=
  [27, 91, 63, 49, 48, 27, 91, 63, 50, 48, 48, 52, 104, 52, 57, 104]

/-- C1 counterexample: the sanitizer is not idempotent
(sanitize (sanitize sanitizeCexInput) differs from sanitize sanitizeCexInput),
and on sanitizeCexInput2 a single application removes every byte although no
denylist literal occurs at position 0, so the removed leading byte is not
part of any exact denylist occurrence of the input. -/
theorem C1_counterexample :
    (processTerminalOutput (processTerminalOutput sanitizeCexInput) ≠
        processTerminalOutput sanitizeCexInput) ∧
    (processTerminalOutput sanitizeCexInput2 = [] ∧
        ∀ p ∈ replacePatterns, p.isPrefixOf sanitizeCexInput2 = false) := by
  decide

/-- C1 (amended): the sanitizer removes exact occurrences of the eight
denylist literals one literal at a time in a fixed order; any input in
which no denylist literal occurs is returned unchanged (in particular the
sanitizer never touches partial or interleaved escape sequences that do
not contain an exact literal occurrence).  Idempotence and the
removed-bytes-lie-in-original-occurrences property fail in general,
because a removal can splice the surrounding bytes into a new literal
occurrence (see the counterexample). -/
theorem C1_theorem (x : Bytes) (h : ∀ p ∈ replacePatterns, indexOf x p = none) :
    processTerminalOutput x = x :=
  foldl_replace_of_no_occurrence x replacePatterns h

/-- C1 witness: a concrete literal-free input is left unchanged. -/
theorem C1_witness :
    (∀ p ∈ replacePatterns, indexOf [104, 105] p = none) ∧
    processTerminalOutput [104, 105] = [104, 105] :=
  ⟨by decide, C1_theorem [104, 105] (by decide)⟩

/- ----------------------------------------------------------------
   Outbound polling loop of handleTerminalConnection
   ---------------------------------------------------------------- -/

/-- Initial value of lastSize in the output-forwarding goroutine of
handleTerminalConnection: 0 for a new session, the current buffer length
for a reconnection (the buffer up to that length was already replayed). -/
def initialLastSize (isNewSession : Bool) (attachBuf : Bytes) : Nat :=
  if isNewSession then 0 else attachBuf.length

/-- Deliveries made by the outbound polling loop of
handleTerminalConnection, given the sequence of buffer snapshots observed
at the ticks: when currentSize exceeds lastSize the slice
buffer[lastSize:currentSize] is sent and lastSize becomes currentSize. -/
def pollDeliveries (lastSize : Nat) : List Bytes → List (Nat × Bytes)
  | [] => []
  | buf :: rest =>
    if lastSize < buf.length then
      (lastSize, buf.drop lastSize) :: pollDeliveries buf.length rest
    else
      pollDeliveries lastSize rest

/-- Deliveries are consecutive slices: each starts exactly where the
previous one ended, the first at the given offset.  This rules out both
out-of-order offsets and re-delivery of any byte offset. -/
def consecutiveFrom : Nat → List (Nat × Bytes) → Prop
  | _, [] => True
  | o, (start, bs) :: rest => start = o ∧ consecutiveFrom (o + bs.length) rest

/-- Helper: pollDeliveries always yields consecutive slices. -/
theorem pollDeliveries_consecutive (bufs : List Bytes) :
    ∀ o : Nat, consecutiveFrom o (pollDeliveries o bufs) := by
  induction bufs with
  | nil => intro o; trivial
  | cons buf rest ih =>
    intro o
    unfold pollDeliveries
    split
    · refine ⟨rfl, ?_⟩
      have hlen : o + (buf.drop o).length = buf.length := by
        have hle : o ≤ buf.length := Nat.le_of_lt (by assumption)
        simp [List.length_drop, Nat.add_sub_cancel' hle]
      rw [hlen]
      exact ih buf.length
    · exact ih o

/-- C3: for every connection the outbound polling loop delivers delta
slices whose offsets are consecutive starting from the initial lastSize
(0 for a new session, the replayed buffer length for a reconnection), so
offsets are non-decreasing and no byte offset — including the one-time
historical replay of a reconnection — is ever delivered twice. -/
theorem C3_theorem (isNewSession : Bool) (attachBuf : Bytes) (bufs : List Bytes) :
    consecutiveFrom (initialLastSize isNewSession attachBuf)
      (pollDeliveries (initialLastSize isNewSession attachBuf) bufs) :=
  pollDeliveries_consecutive bufs (initialLastSize isNewSession attachBuf)

/- ----------------------------------------------------------------
   Model of the encoding/json standard library, as used by the handler
   as json.Unmarshal(raw, &Message) and json.Marshal(Response).  This
   library is external to the repository; the definitions follow the
   documented behaviour of the Go standard library.
   ---------------------------------------------------------------- -/

/-- JSON values; number literals keep their original bytes because Go
re-parses the literal against the target field type. -/
inductive Json where
  | null : Json
  | bool (b : Bool) : Json
  | num (lit : Bytes) : Json
  | str (s : Bytes) : Json
  | arr (elems : List Json) : Json
  | obj (fields : List (Bytes × Json)) : Json

/-- JSON whitespace bytes: space, tab, newline, carriage return. -/
def isJsonWS (b : Nat) : Bool := b = 32 || b = 9 || b = 10 || b = 13

/-- Drops leading JSON whitespace. -/
def skipWS : Bytes → Bytes
  | [] => []
  | b :: rest => if isJsonWS b then skipWS rest else b :: rest

/-- Value of a hexadecimal digit byte. -/
def hexDigitVal (b : Nat) : Option Nat :=
  if 48 ≤ b ∧ b ≤ 57 then some (b - 48)
  else if 97 ≤ b ∧ b ≤ 102 then some (b - 87)
  else if 65 ≤ b ∧ b ≤ 70 then some (b - 55)
  else none

/-- UTF-8 encoding of a code point, for decoded escape sequences. -/
def utf8Encode (cp : Nat) : Bytes :=
  if cp < 128 then [cp]
  else if cp < 2048 then [192 + cp / 64, 128 + cp % 64]
  else if cp < 65536 then [224 + cp / 4096, 128 + cp / 64 % 64, 128 + cp % 64]
  else [240 + cp / 262144, 128 + cp / 4096 % 64, 128 + cp / 64 % 64, 128 + cp % 64]

/-- Parses a JSON string body (the opening quote already consumed):
returns the decoded content and the rest after the closing quote.
Simplification relative to Go: a \u escape is encoded directly, without
combining surrogate pairs (no claim exercises that corner). -/
def parseStringBody : Bytes → Option (Bytes × Bytes)
  | [] => none
  | c :: rest =>
    if c = 34 then some ([], rest)
    else if c = 92 then
      match rest with
      | [] => none
      | e :: rest2 =>
        if e = 34 ∨ e = 92 ∨ e = 47 then
          (parseStringBody rest2).map (fun p => (e :: p.1, p.2))
        else if e = 98 then (parseStringBody rest2).map (fun p => (8 :: p.1, p.2))
        else if e = 102 then (parseStringBody rest2).map (fun p => (12 :: p.1, p.2))
        else if e = 110 then (parseStringBody rest2).map (fun p => (10 :: p.1, p.2))
        else if e = 114 then (parseStringBody rest2).map (fun p => (13 :: p.1, p.2))
        else if e = 116 then (parseStringBody rest2).map (fun p => (9 :: p.1, p.2))
        else if e = 117 then
          match rest2 with
          | h1 :: h2 :: h3 :: h4 :: rest3 =>
            match hexDigitVal h1, hexDigitVal h2, hexDigitVal h3, hexDigitVal h4 with
            | some v1, some v2, some v3, some v4 =>
              (parseStringBody rest3).map
                (fun p => (utf8Encode (((v1 * 16 + v2) * 16 + v3) * 16 + v4) ++ p.1, p.2))
            | _, _, _, _ => none
          | _ => none
        else none
    else if c < 32 then none
    else (parseStringBody rest).map (fun p => (c :: p.1, p.2))

/-- Decimal digit byte. -/
def isDigit (b : Nat) : Bool := 48 ≤ b && b ≤ 57

/-- Parses the optional fraction and exponent of a JSON number after the
integer part lit; returns the full literal and the rest. -/
def parseFracExp (lit : Bytes) (s : Bytes) : Option (Bytes × Bytes) :=
  let fr : Option (Bytes × Bytes) :=
    match s with
    | 46 :: t =>
      let ds := t.takeWhile isDigit
      if ds = [] then none else some (lit ++ 46 :: ds, t.dropWhile isDigit)
    | _ => some (lit, s)
  match fr with
  | none => none
  | some (lit2, s2) =>
    match s2 with
    | e :: t =>
      if e = 101 ∨ e = 69 then
        let st : Bytes × Bytes :=
          match t with
          | 43 :: u => ([43], u)
          | 45 :: u => ([45], u)
          | _ => ([], t)
        let ds := st.2.takeWhile isDigit
        if ds = [] then none
        else some (lit2 ++ e :: st.1 ++ ds, st.2.dropWhile isDigit)
      else some (lit2, s2)
    | [] => some (lit2, s2)

/-- Parses a JSON number literal (sign, integer part with no leading
zeros, optional fraction and exponent). -/
def parseNumber (s : Bytes) : Option (Bytes × Bytes) :=
  let sg : Bytes × Bytes :=
    match s with
    | 45 :: t => ([45], t)
    | _ => ([], s)
  match sg.2 with
  | [] => none
  | d :: _ =>
    if d = 48 then parseFracExp (sg.1 ++ [48]) (sg.2.drop 1)
    else if 49 ≤ d ∧ d ≤ 57 then
      parseFracExp (sg.1 ++ sg.2.takeWhile isDigit) (sg.2.dropWhile isDigit)
    else none

mutual

/-- Parses one JSON value; the fuel argument only forces termination and
always suffices at 2 * length + 2 because every recursive call follows
the consumption of at least one input byte. -/
def parseValue : Nat → Bytes → Option (Json × Bytes)
  | 0, _ => none
  | fuel + 1, input =>
    match skipWS input with
    | [] => none
    | c :: rest =>
      if c = 110 then
        match rest with
        | 117 :: 108 :: 108 :: r => some (Json.null, r)
        | _ => none
      else if c = 116 then
        match rest with
        | 114 :: 117 :: 101 :: r => some (Json.bool true, r)
        | _ => none
      else if c = 102 then
        match rest with
        | 97 :: 108 :: 115 :: 101 :: r => some (Json.bool false, r)
        | _ => none
      else if c = 34 then
        (parseStringBody rest).map (fun p => (Json.str p.1, p.2))
      else if c = 123 then
        match skipWS rest with
        | 125 :: r => some (Json.obj [], r)
        | r2 => (parseMembers fuel r2).map (fun p => (Json.obj p.1, p.2))
      else if c = 91 then
        match skipWS rest with
        | 93 :: r => some (Json.arr [], r)
        | r2 => (parseElems fuel r2).map (fun p => (Json.arr p.1, p.2))
      else if c = 45 ∨ isDigit c then
        (parseNumber (c :: rest)).map (fun p => (Json.num p.1, p.2))
      else none

/-- Parses the members of a nonempty JSON object, starting at a key. -/
def parseMembers : Nat → Bytes → Option (List (Bytes × Json) × Bytes)
  | 0, _ => none
  | fuel + 1, input =>
    match input with
    | 34 :: rest =>
      match parseStringBody rest with
      | none => none
      | some (key, r1) =>
        match skipWS r1 with
        | 58 :: r3 =>
          match parseValue fuel r3 with
          | none => none
          | some (v, r4) =>
            match skipWS r4 with
            | 44 :: r6 =>
              (parseMembers fuel (skipWS r6)).map (fun p => ((key, v) :: p.1, p.2))
            | 125 :: r6 => some ([(key, v)], r6)
            | _ => none
        | _ => none
    | _ => none

/-- Parses the elements of a nonempty JSON array. -/
def parseElems : Nat → Bytes → Option (List Json × Bytes)
  | 0, _ => none
  | fuel + 1, input =>
    match parseValue fuel input with
    | none => none
    | some (v, r1) =>
      match skipWS r1 with
      | 44 :: r3 => (parseElems fuel r3).map (fun p => (v :: p.1, p.2))
      | 93 :: r3 => some ([v], r3)
      | _ => none

end

/-- Models the scanning half of json.Unmarshal: exactly one JSON value,
surrounding whitespace allowed, trailing data rejected. -/
def parseJson (input : Bytes) : Option Json :=
  match parseValue (2 * input.length + 2) input with
  | some (v, rest) => if skipWS rest = [] then some v else none
  | none => none

/- ----------------------------------------------------------------
   The Message and Response envelopes of the terminal package, and the
   Go semantics of unmarshalling into the Message struct.
   ---------------------------------------------------------------- -/

/-- Mirrors the Message struct (json tags type, token, session_id, data,
rows, cols); the Type field is named ty here because type is reserved. -/
structure Message where
  ty : Bytes
  token : Bytes
  sessionID : Bytes
  data : Bytes
  rows : Nat
  cols : Nat
deriving DecidableEq

/-- The zero Message Unmarshal starts from. -/
def Message.zero : Message := ⟨[], [], [], [], 0, 0⟩

/-- Mirrors the Response struct (json tags type, success, message,
session_id; the last two carry omitempty). -/
structure Response where
  ty : Bytes
  success : Bool
  message : Bytes
  sessionID : Bytes
deriving DecidableEq

/-- ASCII case folding of a byte. -/
def toLowerByte (b : Nat) : Nat := if 65 ≤ b ∧ b ≤ 90 then b + 32 else b

/-- Go matches JSON object keys to struct fields exactly first, then
case-insensitively; the six tags of Message are pairwise distinct even
after case folding, so case-insensitive comparison is the exact
behaviour. -/
def keyMatches (key tag : Bytes) : Bool :=
  key.map toLowerByte == tag.map toLowerByte

def tagType : Bytes := ascii ['t', 'y', 'p', 'e']

def tagToken : Bytes := ascii ['t', 'o', 'k', 'e', 'n']

def tagSessionID : Bytes := ascii ['s', 'e', 's', 's', 'i', 'o', 'n', '_', 'i', 'd']

def tagData : Bytes := ascii ['d', 'a', 't', 'a']

def tagRows : Bytes := ascii ['r', 'o', 'w', 's']

def tagCols : Bytes := ascii ['c', 'o', 'l', 's']

/-- Decimal value of a digit string. -/
def digitsToNat (ds : Bytes) : Nat := ds.foldl (fun acc d => acc * 10 + (d - 48)) 0

/-- Models decoding a JSON number literal into a Go uint16 field: the
literal is re-parsed as a plain decimal unsigned integer (a sign, a
fraction or an exponent makes Unmarshal fail) and must fit in 16 bits. -/
def decodeUint16 (lit : Bytes) : Option Nat :=
  if lit ≠ [] ∧ lit.all isDigit then
    if digitsToNat lit < 65536 then some (digitsToNat lit) else none
  else none

/-- Decodes one object member into the Message struct: none models an
UnmarshalTypeError, unknown keys are ignored, a null value leaves the
field unchanged. -/
def setMessageField (m : Message) (key : Bytes) (v : Json) : Option Message :=
  if keyMatches key tagType then
    match v with
    | Json.str s => some { m with ty := s }
    | Json.null => some m
    | _ => none
  else if keyMatches key tagToken then
    match v with
    | Json.str s => some { m with token := s }
    | Json.null => some m
    | _ => none
  else if keyMatches key tagSessionID then
    match v with
    | Json.str s => some { m with sessionID := s }
    | Json.null => some m
    | _ => none
  else if keyMatches key tagData then
    match v with
    | Json.str s => some { m with data := s }
    | Json.null => some m
    | _ => none
  else if keyMatches key tagRows then
    match v with
    | Json.num lit => (decodeUint16 lit).map (fun n => { m with rows := n })
    | Json.null => some m
    | _ => none
  else if keyMatches key tagCols then
    match v with
    | Json.num lit => (decodeUint16 lit).map (fun n => { m with cols := n })
    | Json.null => some m
    | _ => none
  else some m

/-- Folds the members of a JSON object into the Message struct. -/
def unmarshalFields : Message → List (Bytes × Json) → Option Message
  | m, [] => some m
  | m, (k, v) :: rest =>
    match setMessageField m k v with
    | none => none
    | some m2 => unmarshalFields m2 rest

/-- Models json.Unmarshal(raw, &Message) applied to the parsed value: a
JSON object assigns fields, JSON null leaves the zero value, and every
other top-level value is a type error. -/
def unmarshalMessage (j : Json) : Option Message :=
  match j with
  | Json.null => some Message.zero
  | Json.obj fields => unmarshalFields Message.zero fields
  | _ => none

/-- Full decode pipeline the handler runs on a received message. -/
def decodeMessage (raw : Bytes) : Option Message :=
  (parseJson raw).bind unmarshalMessage

/- ----------------------------------------------------------------
   Inbound loop of handleTerminalConnection
   ---------------------------------------------------------------- -/

def asciiAuth : Bytes := ascii ['a', 'u', 't', 'h']

def asciiResize : Bytes := ascii ['r', 'e', 's', 'i', 'z', 'e']

def asciiTerminate : Bytes :=
  ascii ['t', 'e', 'r', 'm', 'i', 'n', 'a', 't', 'e']

/-- Acknowledgement sent before an explicit terminate. -/
def terminateResponse (sessionID : Bytes) : Response :=
  { ty := ascii ['t', 'e', 'r', 'm', 'i', 'n', 'a', 't', 'e', '_',
        'r', 'e', 's', 'p', 'o', 'n', 's', 'e'],
    success := true,
    message := ascii ['S', 'e', 's', 's', 'i', 'o', 'n', ' ',
        't', 'e', 'r', 'm', 'i', 'n', 'a', 't', 'e', 'd'],
    sessionID := sessionID }

/-- Outcome of the inbound loop body for one received message. -/
inductive InboundAction where
  | writePTY (data : Bytes)
  | resize (rows cols : Nat)
  | terminate (ack : Response)
  | ignored
deriving DecidableEq

/-- Body of the inbound loop of handleTerminalConnection for one message
received after authentication: Unmarshal success routes to the control
paths (resize, terminate, or logged-and-ignored), Unmarshal failure
writes the message verbatim to the PTY. -/
def inboundMessageStep (sessionID message : Bytes) : InboundAction :=
  match decodeMessage message with
  | some jsonMsg =>
    if jsonMsg.ty = asciiResize ∧ 0 < jsonMsg.rows ∧ 0 < jsonMsg.cols then
      InboundAction.resize jsonMsg.rows jsonMsg.cols
    else if jsonMsg.ty = asciiTerminate ∧ jsonMsg.sessionID = sessionID then
      InboundAction.terminate (terminateResponse sessionID)
    else InboundAction.ignored
  | none => InboundAction.writePTY message

/-- C2 counterexample: the bytes of the text 123 decode as JSON (a JSON
number), yet the handler writes them verbatim to the PTY, because
json.Unmarshal into the Message struct rejects a top-level number; so a
JSON-decodable message is not always treated as a control message. -/
theorem C2_counterexample :
    (parseJson (ascii ['1', '2', '3'])).isSome = true ∧
    inboundMessageStep [] (ascii ['1', '2', '3']) =
      InboundAction.writePTY (ascii ['1', '2', '3']) := by decide

/-- C2 (amended): a received message is written verbatim to the PTY
exactly when it fails to unmarshal into the JSON control envelope (the
Message struct), and any message that does unmarshal — a JSON object with
type-compatible fields, or JSON null — is routed to the control paths and
never written to the PTY.  Valid JSON that does not unmarshal into the
envelope (numbers, strings, booleans, arrays, objects with wrongly typed
fields) is written to the PTY as keystroke data. -/
theorem C2_theorem (sessionID message : Bytes) :
    (inboundMessageStep sessionID message = InboundAction.writePTY message ↔
      decodeMessage message = none) ∧
    (∀ data : Bytes,
      inboundMessageStep sessionID message = InboundAction.writePTY data →
        data = message) := by
  cases hd : decodeMessage message with
  | none => simp [inboundMessageStep, hd]
  | some m =>
    simp only [inboundMessageStep, hd]
    constructor
    · constructor
      · intro h
        split_ifs at h
      · intro h
        simp at h
    · intro data h
      split_ifs at h

/-- C2 witness: the single byte 104 is not JSON, goes to the PTY, and
only verbatim. -/
theorem C2_witness :
    (inboundMessageStep [] [104] = InboundAction.writePTY [104] ↔
      decodeMessage [104] = none) ∧
    [104] = ([104] : Bytes) :=
  ⟨(C2_theorem [] [104]).1, (C2_theorem [] [104]).2 [104] (by decide)⟩

/- ----------------------------------------------------------------
   Authentication: DefaultAuthProvider and validateClientAuth
   ---------------------------------------------------------------- -/

def invalidFormatMsg : Bytes :=
  ascii ['I', 'n', 'v', 'a', 'l', 'i', 'd', ' ', 'a', 'u', 't', 'h', 'e',
    'n', 't', 'i', 'c', 'a', 't', 'i', 'o', 'n', ' ', 'f', 'o', 'r', 'm', 'a', 't']

def invalidTypeMsg : Bytes :=
  ascii ['I', 'n', 'v', 'a', 'l', 'i', 'd', ' ', 'm', 'e', 's', 's',
    'a', 'g', 'e', ' ', 't', 'y', 'p', 'e']

def missingTokenMsg : Bytes :=
  ascii ['M', 'i', 's', 's', 'i', 'n', 'g', ' ', 'a', 'u', 't', 'h', 'e',
    'n', 't', 'i', 'c', 'a', 't', 'i', 'o', 'n', ' ', 't', 'o', 'k', 'e', 'n']

def invalidTokenMsg : Bytes :=
  ascii ['I', 'n', 'v', 'a', 'l', 'i', 'd', ' ', 'a', 'u', 't', 'h', 'e',
    'n', 't', 'i', 'c', 'a', 't', 'i', 'o', 'n', ' ', 't', 'o', 'k', 'e', 'n']

/-- Mirrors DefaultAuthProvider.ValidataAuthToken: an empty configured
token accepts every client token. -/
def validataAuthToken (providerToken token : Bytes) : Bool :=
  if providerToken = [] then true else token == providerToken

/-- Mirrors validateClientAuth after the transport read: raw is the
first message received on the connection; authProvider is the configured
token of the DefaultAuthProvider, with none modelling a nil
options.AuthProvider. -/
def validateClientAuth (authProvider : Option Bytes) (raw : Bytes) :
    Bool × Bytes × Option Message :=
  match decodeMessage raw with
  | none => (false, invalidFormatMsg, none)
  | some msg =>
    if msg.ty ≠ asciiAuth then (false, invalidTypeMsg, none)
    else if msg.token = [] then (false, missingTokenMsg, none)
    else
      match authProvider with
      | some providerToken =>
        if validataAuthToken providerToken msg.token = false then
          (false, invalidTokenMsg, none)
        else (true, [], some msg)
      | none => (true, [], some msg)

/-- C10: when the configured token is empty, an auth message
authenticates exactly when its client token is nonempty, and a message
with an empty token is rejected with the missing-token failure whatever
token is configured. -/
theorem C10_theorem (raw : Bytes) (msg : Message)
    (hdec : decodeMessage raw = some msg) (hty : msg.ty = asciiAuth) :
    ((validateClientAuth (some []) raw).1 = true ↔ msg.token ≠ []) ∧
    (∀ configured : Option Bytes, msg.token = [] →
      validateClientAuth configured raw = (false, missingTokenMsg, none)) := by
  unfold validateClientAuth
  rw [hdec]
  constructor
  · by_cases htok : msg.token = [] <;> simp [hty, htok, validataAuthToken]
  · intro configured htok
    simp [hty, htok]

/-- Concrete auth message bytes: a JSON object with type auth and the
one-byte token a (34 is the quote byte, 123 and 125 the braces, 58 the
colon, 44 the comma). -/
def authRawSample : Bytes :=
  [123, 34] ++ tagType ++ [34, 58, 34] ++ asciiAuth ++ [34, 44, 34] ++
    tagToken ++ [34, 58, 34, 97, 34, 125]

/-- The Message the sample decodes to. -/
def authMsgSample : Message :=
  { ty := asciiAuth, token := [97], sessionID := [], data := [], rows := 0, cols := 0 }

/-- C10 witness: the sample auth message with empty configured token. -/
theorem C10_witness :
    ((validateClientAuth (some []) authRawSample).1 = true ↔
      authMsgSample.token ≠ []) ∧
    (∀ configured : Option Bytes, authMsgSample.token = [] →
      validateClientAuth configured authRawSample = (false, missingTokenMsg, none)) :=
  C10_theorem authRawSample authMsgSample (by decide) (by decide)

/- ----------------------------------------------------------------
   Model of json.Marshal for Response values.
   ---------------------------------------------------------------- -/

/-- Hex digit byte of a value below 16 (lowercase, as Go emits). -/
def hexDigitByte (v : Nat) : Nat := if v < 10 then 48 + v else 87 + v

/-- The six-byte escape Go emits for control and HTML bytes. -/
def uEscape (b : Nat) : Bytes :=
  [92, 117, 48, 48, hexDigitByte (b / 16), hexDigitByte (b % 16)]

/-- Models the string encoder of json.Marshal (HTML escaping on, the
default used by the handler): quote, backslash, the common control bytes
and the HTML bytes are escaped, everything else passes through. -/
def escapeJSONByte (b : Nat) : Bytes :=
  if b = 34 then [92, 34]
  else if b = 92 then [92, 92]
  else if b = 10 then [92, 110]
  else if b = 13 then [92, 114]
  else if b = 9 then [92, 116]
  else if b = 60 ∨ b = 62 ∨ b = 38 then uEscape b
  else if b < 32 then uEscape b
  else [b]

/-- A quoted, escaped JSON string. -/
def jsonQuote (s : Bytes) : Bytes := 34 :: s.flatMap escapeJSONByte ++ [34]

def asciiTrue : Bytes := ascii ['t', 'r', 'u', 'e']

def asciiFalse : Bytes := ascii ['f', 'a', 'l', 's', 'e']

def tagSuccess : Bytes := ascii ['s', 'u', 'c', 'c', 'e', 's', 's']

def tagMessage : Bytes := ascii ['m', 'e', 's', 's', 'a', 'g', 'e']

/-- Models json.Marshal of a Response: fields in declaration order, the
message and session_id fields omitted when empty (omitempty). -/
def marshalResponse (r : Response) : Bytes :=
  [123, 34] ++ tagType ++ [34, 58] ++ jsonQuote r.ty ++
    [44, 34] ++ tagSuccess ++ [34, 58] ++
    (if r.success then asciiTrue else asciiFalse) ++
    (if r.message = [] then []
      else [44, 34] ++ tagMessage ++ [34, 58] ++ jsonQuote r.message) ++
    (if r.sessionID = [] then []
      else [44, 34] ++ tagSessionID ++ [34, 58] ++ jsonQuote r.sessionID) ++
    [125]

/- ----------------------------------------------------------------
   Session registry and lifecycle: the sessions map, closeSession,
   terminateSession, createNewSession, cleanupExpiredSessions.
   ---------------------------------------------------------------- -/

/-- Mirrors TerminalSession: the process handle, PTY handle and Done
channel are modelled by their observable state (hasProcess stands for
Command and Command.Process being non-nil, ptyOpen for a non-nil PTY);
lastActive is an integer time, sessionTimeout is Options.SessionTimeout
(the remaining TerminalOptions fields configure external process I/O and
appear in no claim). -/
structure TerminalSession where
  id : Bytes
  hasProcess : Bool
  ptyOpen : Bool
  outputBuffer : Bytes
  lastActive : Int
  connections : Nat
  doneClosed : Bool
  sessionTimeout : Int
deriving DecidableEq

/-- The package-level sessions map, as an association list. -/
abbrev Registry := List (Bytes × TerminalSession)

/-- Map lookup. -/
def lookupSession (reg : Registry) (sessionID : Bytes) : Option TerminalSession :=
  match reg with
  | [] => none
  | (k, s) :: rest => if k = sessionID then some s else lookupSession rest sessionID

/-- Map delete. -/
def removeSession : Registry → Bytes → Registry
  | [], _ => []
  | e :: rest, sessionID =>
    if e.1 = sessionID then removeSession rest sessionID
    else e :: removeSession rest sessionID

/-- In-place mutation of the session struct that every holder of the
registry pointer observes. -/
def updateSession : Registry → Bytes → TerminalSession → Registry
  | [], _, _ => []
  | (k, v) :: rest, sessionID, s =>
    if k = sessionID then (k, s) :: updateSession rest sessionID s
    else (k, v) :: updateSession rest sessionID s

/-- The externally visible teardown actions of closeSession. -/
inductive TeardownAction where
  | signalTERM (sessionID : Bytes)
  | closePTY (sessionID : Bytes)
  | closeDone (sessionID : Bytes)
  | removeEntry (sessionID : Bytes)
deriving DecidableEq

/-- Mirrors closeSession (the body run under sessionsLock): a missing
entry is a no-op; otherwise the process is signalled, the PTY closed,
the Done channel closed and the entry removed from the map. -/
def closeSession (reg : Registry) (sessionID : Bytes) :
    Registry × List TeardownAction :=
  match lookupSession reg sessionID with
  | none => (reg, [])
  | some session =>
    (removeSession reg sessionID,
      (if session.hasProcess then [TeardownAction.signalTERM sessionID] else []) ++
        (if session.ptyOpen then [TeardownAction.closePTY sessionID] else []) ++
        [TeardownAction.closeDone sessionID, TeardownAction.removeEntry sessionID])

/-- Mirrors terminateSession: an empty or unknown id reports false
without any teardown action; otherwise closeSession runs and true is
reported. -/
def terminateSession (reg : Registry) (sessionID : Bytes) :
    Registry × Bool × List TeardownAction :=
  if sessionID = [] then (reg, false, [])
  else
    match lookupSession reg sessionID with
    | none => (reg, false, [])
    | some _ => ((closeSession reg sessionID).1, true, (closeSession reg sessionID).2)

/-- Looking up a deleted key fails. -/
theorem lookupSession_removeSession (reg : Registry) (sessionID : Bytes) :
    lookupSession (removeSession reg sessionID) sessionID = none := by
  induction reg with
  | nil => rfl
  | cons e rest ih =>
    by_cases h : e.1 = sessionID
    · simp [removeSession, h, ih]
    · simp [removeSession, lookupSession, h, ih]

/-- Looking up an updated key returns the new struct when the key was
present. -/
theorem lookupSession_updateSession (reg : Registry) (sessionID : Bytes)
    (s0 s : TerminalSession) (h : lookupSession reg sessionID = some s0) :
    lookupSession (updateSession reg sessionID s) sessionID = some s := by
  induction reg with
  | nil => cases h
  | cons e rest ih =>
    obtain ⟨k, v⟩ := e
    by_cases he : k = sessionID
    · subst he
      simp [updateSession, lookupSession]
    · simp only [lookupSession, if_neg he] at h
      simp [updateSession, lookupSession, he, ih h]

/-- C5: teardown is idempotent: a terminate issued after a completed
terminate reports not-found (false) and performs no teardown action, and
a terminate for an id absent from the registry is the same no-op; hence
the teardown actions run at most once per session id. -/
theorem C5_theorem (reg : Registry) (sessionID : Bytes) :
    (terminateSession (terminateSession reg sessionID).1 sessionID =
      ((terminateSession reg sessionID).1, false, [])) ∧
    (lookupSession reg sessionID = none →
      terminateSession reg sessionID = (reg, false, [])) := by
  constructor
  · by_cases hsid : sessionID = []
    · simp [terminateSession, hsid]
    · cases hl : lookupSession reg sessionID with
      | none => simp [terminateSession, hsid, hl]
      | some s =>
        have h2 : lookupSession (terminateSession reg sessionID).1 sessionID = none := by
          have h1 : (terminateSession reg sessionID).1 = removeSession reg sessionID := by
            simp [terminateSession, hsid, hl, closeSession]
          rw [h1]
          exact lookupSession_removeSession reg sessionID
        revert h2
        generalize (terminateSession reg sessionID).1 = R2
        intro h2
        simp [terminateSession, hsid, h2]
  · intro h
    by_cases hsid : sessionID = [] <;> simp [terminateSession, hsid, h]

/-- C5 witness: terminating the one-byte id 120 in the empty registry,
twice and on an absent id. -/
theorem C5_witness :
    (terminateSession (terminateSession [] [120]).1 [120] =
      ((terminateSession [] [120]).1, false, [])) ∧
    terminateSession [] [120] = ([], false, []) :=
  ⟨(C5_theorem [] [120]).1, (C5_theorem [] [120]).2 rfl⟩

/- ----------------------------------------------------------------
   Session reaper: cleanupExpiredSessions.
   ---------------------------------------------------------------- -/

/-- Reap condition of cleanupExpiredSessions: no attached connections
and inactivity beyond the session timeout. -/
def shouldReap (now : Int) (s : TerminalSession) : Bool :=
  s.connections == 0 && s.sessionTimeout < now - s.lastActive

/-- closeSession with its entry Lock() made explicit: Go sync.Mutex is
not reentrant, so that Lock() blocks forever when the calling goroutine
already holds sessionsLock; none models the permanently blocked
outcome. -/
def closeSessionWithLock (sessionsLockHeld : Bool) (reg : Registry)
    (sessionID : Bytes) : Option (Registry × List TeardownAction) :=
  if sessionsLockHeld then none
  else some (closeSession reg sessionID)

/-- Loop of cleanupExpiredSessions over the registry entries; the
deferred unlock keeps sessionsLock held for the whole loop, so every
closeSession call it makes runs with sessionsLockHeld = true. -/
def cleanupLoop (now : Int) :
    List (Bytes × TerminalSession) → Registry → Option Registry
  | [], reg => some reg
  | (sid, session) :: rest, reg =>
    if shouldReap now session then
      match closeSessionWithLock true reg sid with
      | none => none
      | some (reg2, _) => cleanupLoop now rest reg2
    else cleanupLoop now rest reg

/-- Mirrors cleanupExpiredSessions: one reaper tick over the registry,
run while holding sessionsLock; none is the deadlocked outcome. -/
def cleanupExpiredSessions (now : Int) (reg : Registry) : Option Registry :=
  cleanupLoop now reg reg

/-- A session with no connections, idle beyond its timeout. -/
def expiredSession : TerminalSession :=
  { id := [120], hasProcess := true, ptyOpen := true, outputBuffer := [],
    lastActive := 0, connections := 0, doneClosed := false, sessionTimeout := 600 }

/-- The same session with one attached connection. -/
def connectedSession : TerminalSession := { expiredSession with connections := 1 }

/-- C4: the code violates the claim on the teardown side: an entry with
zero connections and inactivity beyond the timeout satisfies the reap
condition, but the tick then calls closeSession while
cleanupExpiredSessions still holds sessionsLock (released only by its
deferred unlock), and Go sync.Mutex is not reentrant — the reaper
goroutine deadlocks (modelled by the none result) and the session is
never torn down.  A session with an attached connection is indeed left
alone however long it idles (last conjunct). -/
theorem C4_theorem :
    shouldReap 601 expiredSession = true ∧
    cleanupExpiredSessions 601 [([120], expiredSession)] = none ∧
    cleanupExpiredSessions 601 [([120], connectedSession)] =
      some [([120], connectedSession)] := by decide

/- ----------------------------------------------------------------
   Session creation and the post-authentication handler path.
   ---------------------------------------------------------------- -/

/-- Error text of a failed pty.Start as formatted by createNewSession. -/
def failedToStartPTY : Bytes :=
  ascii ['f', 'a', 'i', 'l', 'e', 'd', ' ', 't', 'o', ' ',
    's', 't', 'a', 'r', 't', ' ', 'P', 'T', 'Y']

/-- Mirrors createNewSession: sessionID stands for the uuid the source
generates, spawnOK for the success of pty.Start (an external process
effect).  On spawn failure the function returns before the sessions map
is touched; on success the session starts with an empty output buffer,
zero connections and an open Done channel, and is inserted into the
map. -/
def createNewSession (reg : Registry) (sessionID : Bytes) (spawnOK : Bool)
    (now timeout : Int) : Except Bytes TerminalSession × Registry :=
  if spawnOK then
    let session : TerminalSession :=
      { id := sessionID, hasProcess := true, ptyOpen := true, outputBuffer := [],
        lastActive := now, connections := 0, doneClosed := false,
        sessionTimeout := timeout }
    (Except.ok session, (sessionID, session) :: reg)
  else
    (Except.error failedToStartPTY, reg)

/-- Failure auth_response sent by sendErrorResponse. -/
def errorResponse (message : Bytes) : Response :=
  { ty := ascii ['a', 'u', 't', 'h', '_', 'r', 'e', 's', 'p', 'o', 'n', 's', 'e'],
    success := false, message := message, sessionID := [] }

/-- Success auth_response sent by sendAuthSuccess. -/
def authSuccessResponse (sessionID : Bytes) : Response :=
  { ty := ascii ['a', 'u', 't', 'h', '_', 'r', 'e', 's', 'p', 'o', 'n', 's', 'e'],
    success := true, message := [], sessionID := sessionID }

/-- The creation-failure message sent to the requesting connection. -/
def failedToCreateMsg (e : Bytes) : Bytes :=
  ascii ['F', 'a', 'i', 'l', 'e', 'd', ' ', 't', 'o', ' ', 'c', 'r', 'e',
    'a', 't', 'e', ' ', 't', 'e', 'r', 'm', 'i', 'n', 'a', 'l', ':', ' '] ++ e

/-- Observable result of the post-authentication part of
HandleWebSocketWithOptions. -/
structure PostAuthResult where
  registry : Registry
  responses : List Response
  replay : Option Bytes
  attached : Option (Bytes × Bool)
deriving DecidableEq

/-- Mirrors HandleWebSocketWithOptions after successful authentication:
session resolution (reconnect when the supplied id is in the registry,
otherwise creation), the auth_response, the connection-count increment
and the one-time buffer replay of a reconnection.  msgSessionID is the
session_id of the auth message, freshID the uuid a new session would
get, spawnOK the pty.Start outcome; attached carries the session id and
the isNewSession flag passed on to handleTerminalConnection. -/
def handlePostAuth (reg : Registry) (msgSessionID freshID : Bytes)
    (spawnOK : Bool) (now timeout : Int) : PostAuthResult :=
  let found : Option TerminalSession :=
    if msgSessionID ≠ [] then lookupSession reg msgSessionID else none
  match found with
  | some session =>
    { registry := updateSession reg msgSessionID
        { session with connections := session.connections + 1 },
      responses := [authSuccessResponse session.id],
      replay := if session.outputBuffer ≠ [] then some session.outputBuffer else none,
      attached := some (session.id, false) }
  | none =>
    match createNewSession reg freshID spawnOK now timeout with
    | (Except.error e, reg2) =>
      { registry := reg2, responses := [errorResponse (failedToCreateMsg e)],
        replay := none, attached := none }
    | (Except.ok session, reg2) =>
      { registry := updateSession reg2 freshID
          { session with connections := session.connections + 1 },
        responses := [authSuccessResponse session.id],
        replay := none, attached := some (session.id, true) }

/-- C6: when pty.Start fails during session creation the handler sends
exactly one failure auth_response, proceeds with no session, and the
registry is exactly what it was before the attempt. -/
theorem C6_theorem (reg : Registry) (msgSessionID freshID : Bytes)
    (now timeout : Int)
    (h : msgSessionID = [] ∨ lookupSession reg msgSessionID = none) :
    handlePostAuth reg msgSessionID freshID false now timeout =
      { registry := reg,
        responses := [errorResponse (failedToCreateMsg failedToStartPTY)],
        replay := none, attached := none } := by
  have hfound :
      (if msgSessionID ≠ [] then lookupSession reg msgSessionID else none) = none := by
    rcases h with h | h <;> simp [h]
  simp [handlePostAuth, hfound, createNewSession]

/-- C6 witness: failed spawn with no requested session id on the empty
registry. -/
theorem C6_witness :
    handlePostAuth [] [] [120] false 0 600 =
      { registry := [],
        responses := [errorResponse (failedToCreateMsg failedToStartPTY)],
        replay := none, attached := none } :=
  C6_theorem [] [] [120] 0 600 (Or.inl rfl)

/-- The session state a freshly created session reaches right after the
creating connection attaches: empty buffer, one connection. -/
def freshSessionAfterAttach (freshID : Bytes) (now timeout : Int) : TerminalSession :=
  { id := freshID, hasProcess := true, ptyOpen := true, outputBuffer := [],
    lastActive := now, connections := 1, doneClosed := false,
    sessionTimeout := timeout }

/-- C7: an auth message naming a registered session attaches to exactly
that session — the registry afterwards holds it with the same output
buffer and one more connection — while no session id or an unknown one
makes the handler register a fresh session under the generated id with
an empty output buffer. -/
theorem C7_theorem (reg : Registry) (freshID : Bytes) (now timeout : Int) :
    (∀ sid s, sid ≠ [] → lookupSession reg sid = some s →
      (handlePostAuth reg sid freshID true now timeout).attached =
          some (s.id, false) ∧
        lookupSession (handlePostAuth reg sid freshID true now timeout).registry sid =
          some { s with connections := s.connections + 1 }) ∧
    (∀ sid, sid = [] ∨ lookupSession reg sid = none →
      (handlePostAuth reg sid freshID true now timeout).attached =
          some (freshID, true) ∧
        ∃ sNew,
          lookupSession (handlePostAuth reg sid freshID true now timeout).registry
              freshID = some sNew ∧
            sNew.outputBuffer = [] ∧ sNew.id = freshID ∧ sNew.connections = 1) := by
  constructor
  · intro sid s hsid hl
    have hfound : (if sid ≠ [] then lookupSession reg sid else none) = some s := by
      simp [hsid, hl]
    constructor
    · simp [handlePostAuth, hfound]
    · simp only [handlePostAuth, hfound]
      exact lookupSession_updateSession reg sid s _ hl
  · intro sid h
    have hfound : (if sid ≠ [] then lookupSession reg sid else none) = none := by
      rcases h with h | h <;> simp [h]
    constructor
    · simp [handlePostAuth, hfound, createNewSession]
    · refine ⟨freshSessionAfterAttach freshID now timeout, ?_, rfl, rfl, rfl⟩
      simp [handlePostAuth, hfound, createNewSession, updateSession, lookupSession,
        freshSessionAfterAttach]

/-- Concrete registered session with a nonempty buffer for witnesses. -/
def bufferedSession : TerminalSession :=
  { id := [120], hasProcess := true, ptyOpen := true, outputBuffer := [104, 105],
    lastActive := 0, connections := 1, doneClosed := false, sessionTimeout := 600 }

/-- C7 witness: reconnect to the registered session 120 keeps its buffer;
an absent session id registers a fresh empty session under 121. -/
theorem C7_witness :
    ((handlePostAuth [([120], bufferedSession)] [120] [121] true 0 600).attached =
        some (bufferedSession.id, false) ∧
      lookupSession
          (handlePostAuth [([120], bufferedSession)] [120] [121] true 0 600).registry
          [120] =
        some { bufferedSession with connections := bufferedSession.connections + 1 }) ∧
    ((handlePostAuth [([120], bufferedSession)] [] [121] true 0 600).attached =
        some ([121], true) ∧
      ∃ sNew,
        lookupSession
            (handlePostAuth [([120], bufferedSession)] [] [121] true 0 600).registry
            [121] = some sNew ∧
          sNew.outputBuffer = [] ∧ sNew.id = [121] ∧ sNew.connections = 1) :=
  ⟨(C7_theorem [([120], bufferedSession)] [121] 0 600).1 [120] bufferedSession
      (by decide) (by decide),
    (C7_theorem [([120], bufferedSession)] [121] 0 600).2 [] (Or.inl rfl)⟩

/- ----------------------------------------------------------------
   Shell exit: the notification goroutine of bufferTerminalOutput.
   ---------------------------------------------------------------- -/

/-- The session_ended Response the pump broadcasts on shell exit. -/
def sessionEndedNotification (sessionID : Bytes) : Response :=
  { ty := ascii ['s', 'e', 's', 's', 'i', 'o', 'n', '_', 'e', 'n', 'd', 'e', 'd'],
    success := false,
    message := ascii ['S', 'h', 'e', 'l', 'l', ' ', 'p', 'r', 'o', 'c', 'e',
      's', 's', ' ', 'h', 'a', 's', ' ', 'e', 'x', 'i', 't', 'e', 'd'],
    sessionID := sessionID }

/-- The recognizable envelope the notification is wrapped in before it
enters the output stream: a newline, the opening marker, the JSON
payload, the closing marker and a newline (60 and 62 are the angle
brackets, 47 the slash). -/
def wrapJSONMarker (payload : Bytes) : Bytes :=
  (10 :: [60] ++ ascii ['J', 'S', 'O', 'N'] ++ [62]) ++ payload ++
    ([60, 47] ++ ascii ['J', 'S', 'O', 'N'] ++ [62, 10])

/-- Mirrors the shell-exit goroutine of bufferTerminalOutput up to the
grace delay: when the session still has attached connections, the
wrapped session_ended notification is appended to its output buffer. -/
def broadcastShellExit (reg : Registry) (sessionID : Bytes) : Registry :=
  match lookupSession reg sessionID with
  | none => reg
  | some s =>
    if 0 < s.connections then
      updateSession reg sessionID
        { s with outputBuffer := s.outputBuffer ++
            wrapJSONMarker (marshalResponse (sessionEndedNotification sessionID)) }
    else reg

/-- C9: on PTY read error or EOF with attached connections present, the
wrapped session_ended notification is appended to the session's output
buffer (where the attached polling connections pick it up), and the
terminateSession that follows the grace delay succeeds and removes the
registry entry. -/
theorem C9_theorem (reg : Registry) (sessionID : Bytes) (s : TerminalSession)
    (hlook : lookupSession reg sessionID = some s) (hconn : 0 < s.connections)
    (hsid : sessionID ≠ []) :
    (lookupSession (broadcastShellExit reg sessionID) sessionID).map
        TerminalSession.outputBuffer =
      some (s.outputBuffer ++
        wrapJSONMarker (marshalResponse (sessionEndedNotification sessionID))) ∧
    (terminateSession (broadcastShellExit reg sessionID) sessionID).2.1 = true ∧
    lookupSession (terminateSession (broadcastShellExit reg sessionID) sessionID).1
        sessionID = none := by
  have hb : broadcastShellExit reg sessionID =
      updateSession reg sessionID
        { s with outputBuffer := s.outputBuffer ++
            wrapJSONMarker (marshalResponse (sessionEndedNotification sessionID)) } := by
    simp [broadcastShellExit, hlook, hconn]
  have hl2 := lookupSession_updateSession reg sessionID s
    { s with outputBuffer := s.outputBuffer ++
        wrapJSONMarker (marshalResponse (sessionEndedNotification sessionID)) } hlook
  rw [hb]
  refine ⟨by rw [hl2]; rfl, ?_, ?_⟩
  · simp [terminateSession, hsid, hl2]
  · simp [terminateSession, hsid, hl2, closeSession]
    exact lookupSession_removeSession _ _

/-- C9 witness: shell exit on the registered session 120 with one
attached connection. -/
theorem C9_witness :
    (lookupSession (broadcastShellExit [([120], bufferedSession)] [120]) [120]).map
        TerminalSession.outputBuffer =
      some (bufferedSession.outputBuffer ++
        wrapJSONMarker (marshalResponse (sessionEndedNotification [120]))) ∧
    (terminateSession (broadcastShellExit [([120], bufferedSession)] [120]) [120]).2.1 =
      true ∧
    lookupSession
        (terminateSession (broadcastShellExit [([120], bufferedSession)] [120]) [120]).1
        [120] = none :=
  C9_theorem [([120], bufferedSession)] [120] bufferedSession (by decide) (by decide)
    (by decide)

/- ----------------------------------------------------------------
   Buffer growth and connection offsets: the pump appends, the exit
   notification append, attach, and the outbound poll ticks.
   ---------------------------------------------------------------- -/

/-- Events that touch a session's output buffer or the per-connection
lastSize offsets: a pump read (sanitized before appending), the
shell-exit notification append, a connection attaching (its offset is 0
for a new session and the current buffer length for a reconnection), and
an outbound poll tick of connection i. -/
inductive BufferEvent where
  | ptyChunk (raw : Bytes)
  | exitNotice (payload : Bytes)
  | attach (isNewSession : Bool)
  | poll (i : Nat)
deriving DecidableEq

/-- The per-session state those events act on: the output buffer and the
lastSize offset of every connection that attached so far. -/
structure SessionBufState where
  buf : Bytes
  offsets : List Nat
deriving DecidableEq

/-- One event step, mirroring the append of bufferTerminalOutput, the
shell-exit notification write, the attach path of
HandleWebSocketWithOptions, and the ticker body of the outbound loop of
handleTerminalConnection (send the delta and move lastSize up to the
current length when the buffer grew). -/
def bufferStep (st : SessionBufState) (e : BufferEvent) : SessionBufState :=
  match e with
  | BufferEvent.ptyChunk raw => { st with buf := st.buf ++ processTerminalOutput raw }
  | BufferEvent.exitNotice payload => { st with buf := st.buf ++ payload }
  | BufferEvent.attach isNewSession =>
    { st with offsets := st.offsets ++ [initialLastSize isNewSession st.buf] }
  | BufferEvent.poll i =>
    match st.offsets[i]? with
    | none => st
    | some lastSize =>
      if lastSize < st.buf.length then
        { st with offsets := st.offsets.set i st.buf.length }
      else st

/-- A run of events. -/
def bufferRun (st : SessionBufState) (evs : List BufferEvent) : SessionBufState :=
  evs.foldl bufferStep st

/-- Offset invariant: every tracked connection offset is at most the
current buffer length. -/
def offsetsWithinBuffer (st : SessionBufState) : Prop :=
  ∀ o ∈ st.offsets, o ≤ st.buf.length

/-- A poll tick leaves the buffer alone. -/
theorem bufferStep_poll_buf (st : SessionBufState) (i : Nat) :
    (bufferStep st (BufferEvent.poll i)).buf = st.buf := by
  simp only [bufferStep]
  cases hidx : st.offsets[i]? with
  | none => rfl
  | some lastSize => by_cases hlt : lastSize < st.buf.length <;> simp [hlt]

/-- A poll tick either leaves the offsets alone or moves one offset up
to the current buffer length. -/
theorem bufferStep_poll_offsets (st : SessionBufState) (i : Nat) :
    (bufferStep st (BufferEvent.poll i)).offsets = st.offsets ∨
    (bufferStep st (BufferEvent.poll i)).offsets = st.offsets.set i st.buf.length := by
  simp only [bufferStep]
  cases hidx : st.offsets[i]? with
  | none => exact Or.inl rfl
  | some lastSize =>
    by_cases hlt : lastSize < st.buf.length
    · right; simp [hlt]
    · left; simp [hlt]

/-- One event never shrinks the buffer. -/
theorem bufferStep_length_le (st : SessionBufState) (e : BufferEvent) :
    st.buf.length ≤ (bufferStep st e).buf.length := by
  cases e with
  | ptyChunk raw => simp [bufferStep]
  | exitNotice payload => simp [bufferStep]
  | attach isNewSession => simp [bufferStep]
  | poll i => rw [bufferStep_poll_buf]

/-- One event preserves the offset invariant. -/
theorem bufferStep_offsets (st : SessionBufState) (e : BufferEvent)
    (h : offsetsWithinBuffer st) : offsetsWithinBuffer (bufferStep st e) := by
  cases e with
  | ptyChunk raw =>
    intro o ho
    simp only [bufferStep] at ho ⊢
    exact le_trans (h o ho) (by simp)
  | exitNotice payload =>
    intro o ho
    simp only [bufferStep] at ho ⊢
    exact le_trans (h o ho) (by simp)
  | attach isNewSession =>
    intro o ho
    simp only [bufferStep, List.mem_append, List.mem_singleton] at ho
    simp only [bufferStep]
    rcases ho with ho | ho
    · exact h o ho
    · subst ho
      unfold initialLastSize
      split <;> simp
  | poll i =>
    intro o ho
    rw [bufferStep_poll_buf]
    rcases bufferStep_poll_offsets st i with hoff | hoff <;> rw [hoff] at ho
    · exact h o ho
    · rcases List.mem_or_eq_of_mem_set ho with hmem | heq
      · exact h o hmem
      · exact le_of_eq heq

/-- A run never shrinks the buffer. -/
theorem bufferRun_length_le (evs : List BufferEvent) :
    ∀ st : SessionBufState, st.buf.length ≤ (bufferRun st evs).buf.length := by
  induction evs with
  | nil => intro st; exact le_refl _
  | cons e evs ih =>
    intro st
    exact le_trans (bufferStep_length_le st e) (ih (bufferStep st e))

/-- A run preserves the offset invariant. -/
theorem bufferRun_offsets (evs : List BufferEvent) :
    ∀ st : SessionBufState, offsetsWithinBuffer st →
      offsetsWithinBuffer (bufferRun st evs) := by
  induction evs with
  | nil => intro st h; exact h
  | cons e evs ih =>
    intro st h
    exact ih (bufferStep st e) (bufferStep_offsets st e h)

/-- C8: along every sequence of buffer events the output buffer length
is non-decreasing (extending a run never shrinks the buffer seen at any
earlier point), and starting from any state satisfying the offset
invariant — such as the empty state a fresh session begins in — every
attached connection's tracked offset stays at most the current buffer
length: no connection observes a shrinking buffer. -/
theorem C8_theorem (st : SessionBufState) (evs evs2 : List BufferEvent)
    (h : offsetsWithinBuffer st) :
    (bufferRun st evs).buf.length ≤ (bufferRun st (evs ++ evs2)).buf.length ∧
    offsetsWithinBuffer (bufferRun st evs) := by
  constructor
  · simp only [bufferRun, List.foldl_append]
    exact bufferRun_length_le evs2 (List.foldl bufferStep st evs)
  · exact bufferRun_offsets evs st h

/-- C8 witness: a concrete run from the fresh-session state. -/
theorem C8_witness :
    (bufferRun ⟨[], []⟩ [BufferEvent.attach true]).buf.length ≤
      (bufferRun ⟨[], []⟩
        ([BufferEvent.attach true] ++
          [BufferEvent.ptyChunk [104], BufferEvent.poll 0])).buf.length ∧
    offsetsWithinBuffer (bufferRun ⟨[], []⟩ [BufferEvent.attach true]) :=
  C8_theorem ⟨[], []⟩ [BufferEvent.attach true]
    [BufferEvent.ptyChunk [104], BufferEvent.poll 0]
    (by simp [offsetsWithinBuffer])

end RemoteTerm
